import Mathlib

/-!
Verification development for `nexa/gguf/server/nexa_service.py` (nexa-sdk).

The service layer is a gateway in front of wrapped inference engines.  We embed
the request/response data model and the dispatch logic of the gateway
(`nexa_run_text_generation`, `_resp_async_generator`, the `/v1/completions`,
`/v1/chat/completions` and audio endpoints, and the GPU→CPU fallback of
`load_model`) as pure Lean functions.  The wrapped engines (llama.cpp,
stable-diffusion, whisper) are out of scope; their incremental output is an
input of the model (a list of chunks), and exceptions they may raise are
explicit `Except` values.  Floats of the Python source (temperature, top_p)
are modelled as `Rat`; only comparisons and record plumbing matter here.
-/

namespace NexaService

/-- One chat message, mirroring the pydantic `Message` model
(`nexa_service.py` lines 92-94): a role and a content string. -/
structure Message where
  role : String
  content : String
deriving DecidableEq

/-- A log-probability record as the service manipulates it: a Python dict
mapping field names (e.g. `tokens`, `token_logprobs`, `top_logprobs`,
`text_offset`) to lists.  The element type of the lists is irrelevant to the
gateway (it only concatenates them), so we fix it to `String`. -/
abbrev LPRecord := List (String × List String)

/-- One chunk yielded by `model.create_chat_completion(..., stream=True)`:
`chunk["choices"][0]` has a `delta` that optionally carries a `"content"`
key, and optionally a `"logprobs"` key.  `delta = none` models a delta
without a `"content"` key; `logprobs = none` models an absent key. -/
structure ChatChunk where
  delta : Option String
  logprobs : Option LPRecord
deriving DecidableEq

/-- One chunk yielded by `model.create_completion(..., stream=True)`:
`chunk["choices"][0]["text"]` is always present; `"logprobs"` optionally. -/
structure ComplChunk where
  text : String
  logprobs : Option LPRecord
deriving DecidableEq

/-- The pydantic `GenerationRequest` (`nexa_service.py` lines 81-90) with its
declared field types and defaults.  Note: the source declares no numeric
bounds or validators on any field. -/
structure GenerationRequest where
  prompt : String := "Tell me a story"
  temperature : Rat := 1
  max_new_tokens : Int := 128
  top_k : Int := 50
  top_p : Rat := 1
  stop_words : List String := []
  logprobs : Bool := false
  top_logprobs : Int := 4
  stream : Bool := false
deriving DecidableEq

/-- The pydantic `ChatCompletionRequest` (`nexa_service.py` lines 100-108). -/
structure ChatCompletionRequest where
  messages : List Message := [⟨"user", "Tell me a story"⟩]
  max_tokens : Int := 128
  temperature : Rat := 1/10
  stream : Bool := false
  stop_words : List String := []
  logprobs : Bool := false
  top_logprobs : Int := 4
deriving DecidableEq

/-- A wrapped text model handle (llama.cpp `Llama`).  The incremental output
its two streaming entry points would produce for the dispatched parameters is
taken as given (the engines are out of scope): `chatStream` is what
`create_chat_completion(..., stream=True)` yields, `complStream` what
`create_completion(..., stream=True)` yields. -/
structure TextModel where
  chatStream : List ChatChunk
  complStream : List ComplChunk
deriving DecidableEq

/-- The process-wide model handle, tagged by kind: an NLP/multimodal `Llama`
handle, a whisper `WhisperModel` (Audio), or a `StableDiffusion` handle
(Computer Vision).  Only the text handle has `create_completion` /
`create_chat_completion` attributes. -/
inductive Handle where
  | text (tm : TextModel)
  | audio
  | diffusion
deriving DecidableEq

/-- The module-level globals of `nexa_service.py` that text generation reads:
`model`, `chat_format`, `completion_template`, `is_local_path`,
`is_huggingface`.  A completion template is a string with a single `input`
placeholder, modelled as the (prefix, suffix) pair around that placeholder so
that `template.format(input=p)` is `prefix ++ p ++ suffix`. -/
structure ServerState where
  model : Option Handle
  chat_format : Option String
  completion_template : Option (String × String)
  is_local_path : Bool
  is_huggingface : Bool
deriving DecidableEq

/-- The `chat_completion_system_prompt` global (`nexa_service.py` line 72). -/
def chat_completion_system_prompt : List Message :=
  [⟨"system", "You are a helpful assistant"⟩]

/-- Python exceptions the gateway can see from its own code or from attribute
access on the handle. -/
inductive PyError where
  | valueError (msg : String)
  | attributeError (attr : String)
deriving DecidableEq

/-- The `str(e)` rendering used when an exception is converted to an HTTP
error detail.  (The exact Python message text is abbreviated; no claim
depends on its wording.) -/
def PyError.msg : PyError → String
  | .valueError m => m
  | .attributeError a => "object has no attribute " ++ a

/-- The parameters actually passed to the wrapped handle's entry point:
either `create_chat_completion` with a message list, or `create_completion`
with a formatted prompt string. -/
inductive EngineCall where
  | chatCompletion (messages : List Message) (temperature : Rat)
      (max_tokens : Int) (top_k : Int) (top_p : Rat) (stop : List String)
      (logprobs : Bool) (top_logprobs : Int)
  | completion (prompt : String) (temperature : Rat)
      (max_tokens : Int) (top_k : Int) (top_p : Rat) (stop : List String)
      (logprobs : Bool) (top_logprobs : Int)
deriving DecidableEq

/-- What `nexa_run_text_generation` returns: either the raw streaming
producer (only on the chat path with `stream=True`), or the drained result
dict `\x7b"result": text, "logprobs": lp\x7d`.  The `EngineCall` records the
normalized parameters that were passed to the handle. -/
inductive GenOutcome where
  | streamer (call : EngineCall) (chunks : List ChatChunk)
  | result (call : EngineCall) (text : String) (logprobs : Option LPRecord)
deriving DecidableEq

/-- The in-place list-extension step of the drain loop
(`nexa_service.py` lines 336-338 and 365-367): for each key of the
accumulated record, if the chunk's record has the same key, extend the
accumulated list with the chunk's list. -/
def extendLPRecord (acc c : LPRecord) : LPRecord :=
  acc.map fun kv =>
    match c.lookup kv.1 with
    | some w => (kv.1, kv.2 ++ w)
    | none => kv

/-- One step of logprobs accumulation over a chunk
(`if logprobs and "logprobs" in chunk["choices"][0]`, lines 332-338): ignored
unless the request's logprobs flag is set and the chunk carries a record;
the first carried record becomes the accumulator, later ones extend it. -/
def stepLP (flag : Bool) (acc c : Option LPRecord) : Option LPRecord :=
  if flag then
    match c with
    | none => acc
    | some cr =>
      match acc with
      | none => some cr
      | some ar => some (extendLPRecord ar cr)
  else acc

/-- Accumulator of the drain loops: `generated_text` and `logprobs_or_none`. -/
structure DrainState where
  text : String
  lp : Option LPRecord
deriving DecidableEq

/-- One iteration of the chat-path drain loop (`nexa_service.py` lines
327-338): append `delta["content"]` when the key is present, accumulate
logprobs. -/
def drainChatStep (flag : Bool) (s : DrainState) (c : ChatChunk) : DrainState :=
  { text := s.text ++ c.delta.getD "", lp := stepLP flag s.lp c.logprobs }

/-- The chat-path drain (`for chunk in streamer`, lines 327-338). -/
def drainChat (flag : Bool) (chunks : List ChatChunk) : DrainState :=
  chunks.foldl (drainChatStep flag) ⟨"", none⟩

/-- One iteration of the completion-path drain loop (lines 357-367). -/
def drainComplStep (flag : Bool) (s : DrainState) (c : ComplChunk) : DrainState :=
  { text := s.text ++ c.text, lp := stepLP flag s.lp c.logprobs }

/-- The completion-path drain (`for chunk in streamer`, lines 357-367). -/
def drainCompl (flag : Bool) (chunks : List ComplChunk) : DrainState :=
  chunks.foldl (drainComplStep flag) ⟨"", none⟩

/-- `completion_template.format(input=prompt)` when a template is set,
otherwise the prompt itself (`nexa_service.py` lines 340-343). -/
def formatCompletionPrompt (tpl : Option (String × String)) (prompt : String) : String :=
  match tpl with
  | some t => t.1 ++ prompt ++ t.2
  | none => prompt

/-- `nexa_run_text_generation` (`nexa_service.py` lines 294-373).  When
`chat_format` is set, the prompt is wrapped into a message list (with the
system prompt unless `is_local_path` or `is_huggingface`) and
`create_chat_completion(stream=True)` is called; the raw streamer is returned
if `stream` is true, otherwise it is drained.  When `chat_format` is not set,
`create_completion(stream=True)` is called on the template-formatted prompt
and always drained, regardless of `stream`.  Calling either entry point on a
non-text handle raises `AttributeError`; a missing model raises `ValueError`. -/
def nexa_run_text_generation (st : ServerState) (prompt : String)
    (temperature : Rat) (stop_words : List String)
    (max_new_tokens top_k : Int) (top_p : Rat)
    (logprobs : Bool) (top_logprobs : Int) (stream : Bool) :
    Except PyError GenOutcome :=
  match st.model with
  | none => .error (.valueError "Model is not loaded. Please check the model path and try again.")
  | some h =>
    match st.chat_format with
    | some _ =>
      let messages :=
        if st.is_local_path || st.is_huggingface then
          [⟨"user", prompt⟩]
        else
          chat_completion_system_prompt ++ [⟨"user", prompt⟩]
      let call := EngineCall.chatCompletion messages temperature max_new_tokens
        top_k top_p stop_words logprobs top_logprobs
      match h with
      | .text tm =>
        if stream then
          .ok (.streamer call tm.chatStream)
        else
          let s := drainChat logprobs tm.chatStream
          .ok (.result call s.text s.lp)
      | _ => .error (.attributeError "create_chat_completion")
    | none =>
      let fp := formatCompletionPrompt st.completion_template prompt
      let call := EngineCall.completion fp temperature max_new_tokens
        top_k top_p stop_words logprobs top_logprobs
      match h with
      | .text tm =>
        let s := drainCompl logprobs tm.complStream
        .ok (.result call s.text s.lp)
      | _ => .error (.attributeError "create_completion")

/-- A value placed in the `content` slot of a wire-framed streaming chunk.
`_resp_async_generator` puts whatever object the iteration yields there:
a plain string (when the iterated object yields strings, e.g. the keys of a
dict) or a whole chat-completion chunk dict (when it is handed the streamer
of `create_chat_completion`). -/
inductive TokenVal where
  | str (s : String)
  | chunkObj (c : ChatChunk)
deriving DecidableEq

/-- One wire-framed server-sent event body: the JSON chunk of a `data:` line
(id, `"object": "chat.completion.chunk"`, one delta whose `content` is the
iterated token), or the terminal `data: [DONE]` sentinel.  The `created`
timestamp is real time and not modelled. -/
inductive WireEvent where
  | data (id : String) (content : TokenVal)
  | done
deriving DecidableEq

/-- `_resp_async_generator` (`nexa_service.py` lines 465-475): one `data:`
event per item yielded by `streamer`, then a single `[DONE]` sentinel.
`rid` is the `uuid.uuid4()` drawn once per stream. -/
def resp_async_generator (rid : String) : List TokenVal → List WireEvent
  | [] => [.done]
  | t :: ts => .data rid t :: resp_async_generator rid ts

/-- Iterating the object returned by `nexa_run_text_generation` in stream
mode (`for token in streamer` inside `_resp_async_generator`): a raw chat
streamer yields its chunk dicts; the drained result dict yields its keys
`"result"` and `"logprobs"` in insertion order. -/
def streamTokensOf : GenOutcome → List TokenVal
  | .streamer _ chunks => chunks.map .chunkObj
  | .result _ _ _ => [.str "result", .str "logprobs"]

/-- One choice of the non-streaming `/v1/completions` JSON response
(`nexa_service.py` lines 494-499). -/
structure CompletionChoice where
  text : String
  index : Nat
  logprobs : Option LPRecord
  finish_reason : String
deriving DecidableEq

/-- What an endpoint handler returns to the HTTP layer: a streaming
response, a JSON body, or a structured error (an `HTTPException` with a
status code, rendered by the framework as a structured error payload —
the process does not crash). -/
inductive EndpointResult where
  | streamingResponse (events : List WireEvent)
  | jsonResponse (choice : CompletionChoice)
  | chatJsonResponse (message : Message) (logprobs : Option LPRecord)
  | textJsonResponse (text : String)
  | errorResponse (status : Nat) (detail : String)
deriving DecidableEq

/-- True exactly for a structured 4xx-class error response. -/
def isClientErrorResponse : EndpointResult → Bool
  | .errorResponse s _ => 400 ≤ s && s < 500
  | _ => false

/-- The request validation the service declares for `/v1/completions`:
`GenerationRequest` is a plain pydantic model with typed fields and defaults
and no range validators or bounds (`nexa_service.py` lines 81-90), so every
well-typed request value is accepted. -/
def validateGenerationRequest (_ : GenerationRequest) : Bool := true

/-- Bounds predicate following the spec's words only (sampling parameters
"temperature, top-k, top-p, max tokens" with their usual declared ranges):
temperature and top-k nonnegative, top-p a probability, max tokens positive.
This is the spec-side reading of "outside their declared bounds"; it is NOT
derived from the source, which declares no bounds. -/
def specSamplingWithinBounds (r : GenerationRequest) : Bool :=
  decide (0 ≤ r.temperature) && decide (0 ≤ r.top_k) &&
  decide (0 ≤ r.top_p) && decide (r.top_p ≤ 1) && decide (0 < r.max_new_tokens)

/-- `/v1/completions` handler `generate_text` (`nexa_service.py` lines
477-503).  Any exception raised inside the body is caught and surfaced as an
`HTTPException(500, str(e))`.  With `stream=True` the returned object is fed
to `_resp_async_generator` and wrapped in a `StreamingResponse`; otherwise
the drained dict is turned into a completion JSON body.  (`stream=False`
always yields a `.result` outcome; the `.streamer` case there would be a
`TypeError` on `result["result"]`, also caught as a 500.) -/
def generate_text (st : ServerState) (rid : String) (req : GenerationRequest) :
    EndpointResult :=
  match nexa_run_text_generation st req.prompt req.temperature req.stop_words
      req.max_new_tokens req.top_k req.top_p req.logprobs req.top_logprobs
      req.stream with
  | .error e => .errorResponse 500 e.msg
  | .ok out =>
    if req.stream then
      .streamingResponse (resp_async_generator rid (streamTokensOf out))
    else
      match out with
      | .result _ t lp => .jsonResponse ⟨t, 0, lp, "stop"⟩
      | .streamer _ _ => .errorResponse 500 "TypeError"

/-- The `GenerationRequest(...)` object built by `chat_completions`
(`nexa_service.py` lines 509-517): the prompt is the empty string when the
message list is empty and the last message's content otherwise; `top_k` and
`top_p` are not passed and keep their declared defaults. -/
def chatRequestToGenerationRequest (req : ChatCompletionRequest) : GenerationRequest :=
  { prompt :=
      match req.messages.getLast? with
      | none => ""
      | some m => m.content
    temperature := req.temperature
    max_new_tokens := req.max_tokens
    stop_words := req.stop_words
    logprobs := req.logprobs
    top_logprobs := req.top_logprobs
    stream := req.stream }

/-- `/v1/chat/completions` handler `chat_completions` (`nexa_service.py`
lines 506-537): builds a `GenerationRequest` from the chat request, then
dispatches exactly like `generate_text`, returning a chat-shaped JSON body
in the non-streaming case. -/
def chat_completions (st : ServerState) (rid : String)
    (req : ChatCompletionRequest) : EndpointResult :=
  let g := chatRequestToGenerationRequest req
  match nexa_run_text_generation st g.prompt g.temperature g.stop_words
      g.max_new_tokens g.top_k g.top_p g.logprobs g.top_logprobs g.stream with
  | .error e => .errorResponse 500 e.msg
  | .ok out =>
    if g.stream then
      .streamingResponse (resp_async_generator rid (streamTokensOf out))
    else
      match out with
      | .result _ t lp => .chatJsonResponse ⟨"assistant", t⟩ lp
      | .streamer _ _ => .errorResponse 500 "TypeError"

/-- The GPU→CPU fallback of the NLP branch of `load_model`
(`nexa_service.py` lines 179-229; the function-calling and the regular NLP
sub-branches are textually identical, and the Multimodal branch at lines
259-280 has the same shape).  The trace records each `Llama(...)`
constructor call by its `n_gpu_layers` argument, in order.  `gpu_available`
is `is_gpu_available()`; `fails n` tells whether the constructor raises when
called with `n_gpu_layers = n`.  The first attempt uses `-1` (all layers on
GPU) when a GPU is available and `0` otherwise; on any exception a fallback
notice is logged and a single retry with `n_gpu_layers = 0` is made, whose
exception, if any, propagates. -/
structure LoadTrace where
  attempts : List Int
  fallback_logged : Bool
  succeeded : Bool
deriving DecidableEq

/-- See `LoadTrace`. -/
def load_nlp_model (gpu_available : Bool) (fails : Int → Bool) : LoadTrace :=
  let first : Int := if gpu_available then -1 else 0
  if fails first then
    { attempts := [first, 0], fallback_logged := true, succeeded := !(fails 0) }
  else
    { attempts := [first], fallback_logged := false, succeeded := true }

/-- The filesystem as the set of existing temp-file paths. -/
abbrev FileSystem := List String

/-- Common shape of the two audio endpoints (`nexa_service.py` lines
609-660): `NamedTemporaryFile(delete=False)` creates the file at
`temp_audio_path` and the uploaded payload is written to it; `engine`
abstracts `model.transcribe(...)` followed by joining the segment texts
(`Except.error` when the wrapped model raises); the `finally` block runs
`os.unlink(temp_audio_path)` on every exit path before the handler returns.
On engine failure the caught exception becomes an `HTTPException(500, ...)`. -/
def audio_handler (errPrefix : String) (fs : FileSystem)
    (temp_audio_path : String) (engine : Except String String) :
    EndpointResult × FileSystem :=
  let fs1 := fs ++ [temp_audio_path]
  let resp :=
    match engine with
    | .ok text => EndpointResult.textJsonResponse text
    | .error e => EndpointResult.errorResponse 500 (errPrefix ++ e)
  (resp, fs1.erase temp_audio_path)

/-- `/v1/audio/transcriptions` handler (`nexa_service.py` lines 609-635). -/
def transcribe_audio : FileSystem → String → Except String String →
    EndpointResult × FileSystem :=
  audio_handler "Error during transcription: "

/-- `/v1/audio/translations` handler (`nexa_service.py` lines 637-660). -/
def translate_audio : FileSystem → String → Except String String →
    EndpointResult × FileSystem :=
  audio_handler "Error during translation: "

/-- Merge of per-chunk logprobs records as the spec describes it: skip
chunks carrying no record; take the first carried record; for each
subsequent chunk carrying a record, extend each field of the accumulated
record (whose field names are those of the first record — extension never
adds or removes fields) with that chunk's list for the same field name. -/
def specMergeLogprobs : List (Option LPRecord) → Option LPRecord
  | [] => none
  | none :: rest => specMergeLogprobs rest
  | some r :: rest => some ((rest.filterMap id).foldl extendLPRecord r)

/-- The per-chunk logprobs records of the stream that the loaded text model
produces on the path selected by the server state. -/
def handleStreamLogprobs (st : ServerState) (tm : TextModel) : List (Option LPRecord) :=
  match st.chat_format with
  | some _ => tm.chatStream.map (fun c => c.logprobs)
  | none => tm.complStream.map (fun c => c.logprobs)

/-- The concatenated content of the stream that the loaded text model
produces on the path selected by the server state. -/
def handleDrainText (st : ServerState) (tm : TextModel) : String :=
  match st.chat_format with
  | some _ => (drainChat true tm.chatStream).text
  | none => (drainCompl true tm.complStream).text

/-! ### Concrete states and helper lemmas -/

/-- A text model whose completion stream yields the single chunk `"hi"`. -/
def tmHi : TextModel := { chatStream := [], complStream := [⟨"hi", none⟩] }

/-- Server state after loading `tmHi` as an NLP model with no chat template
and no completion template (the completion path of the drain). -/
def stNoChat : ServerState :=
  { model := some (.text tmHi), chat_format := none, completion_template := none,
    is_local_path := false, is_huggingface := false }

/-- Server state after loading a whisper Audio model: `load_model` leaves the
`chat_format` and `completion_template` globals at their initial `None`. -/
def stAudio : ServerState :=
  { model := some .audio, chat_format := none, completion_template := none,
    is_local_path := false, is_huggingface := false }

/-- Server state after loading a StableDiffusion (Computer Vision) model. -/
def stDiffusion : ServerState :=
  { model := some .diffusion, chat_format := none, completion_template := none,
    is_local_path := false, is_huggingface := false }

/-- A text model whose chat stream carries content and logprobs records. -/
def tmLP : TextModel :=
  { chatStream :=
      [⟨some "Hel", some [("tokens", ["Hel"]), ("token_logprobs", ["-0.1"])]⟩,
       ⟨some "lo", some [("tokens", ["lo"]), ("token_logprobs", ["-0.2"]), ("extra", ["x"])]⟩,
       ⟨none, none⟩],
    complStream := [] }

/-- Server state after loading `tmLP` as an NLP model with a chat template. -/
def stChatLP : ServerState :=
  { model := some (.text tmLP), chat_format := some "llama-2", completion_template := none,
    is_local_path := true, is_huggingface := false }

lemma foldl_stepLP_some (l : List (Option LPRecord)) (r : LPRecord) :
    l.foldl (stepLP true) (some r) = some ((l.filterMap id).foldl extendLPRecord r) := by
  induction l generalizing r with
  | nil => rfl
  | cons o t ih => cases o <;> simp [stepLP, List.filterMap_cons, ih]

lemma foldl_stepLP_none (l : List (Option LPRecord)) :
    l.foldl (stepLP true) none = specMergeLogprobs l := by
  induction l with
  | nil => rfl
  | cons o t ih =>
    cases o with
    | none => simpa [stepLP, specMergeLogprobs] using ih
    | some r => simp [stepLP, specMergeLogprobs, foldl_stepLP_some]

lemma drainChat_foldl_lp (flag : Bool) (cs : List ChatChunk) (s : DrainState) :
    (cs.foldl (drainChatStep flag) s).lp
      = (cs.map (fun c => c.logprobs)).foldl (stepLP flag) s.lp := by
  induction cs generalizing s with
  | nil => rfl
  | cons c t ih => simpa [drainChatStep] using ih (drainChatStep flag s c)

lemma drainCompl_foldl_lp (flag : Bool) (cs : List ComplChunk) (s : DrainState) :
    (cs.foldl (drainComplStep flag) s).lp
      = (cs.map (fun c => c.logprobs)).foldl (stepLP flag) s.lp := by
  induction cs generalizing s with
  | nil => rfl
  | cons c t ih => simpa [drainComplStep] using ih (drainComplStep flag s c)

/-- The drained logprobs of the chat path equal the spec-described merge of
the per-chunk records. -/
lemma drainChat_lp_eq_specMerge (cs : List ChatChunk) :
    (drainChat true cs).lp = specMergeLogprobs (cs.map (fun c => c.logprobs)) := by
  rw [drainChat, drainChat_foldl_lp]; exact foldl_stepLP_none _

/-- The drained logprobs of the completion path equal the spec-described
merge of the per-chunk records. -/
lemma drainCompl_lp_eq_specMerge (cs : List ComplChunk) :
    (drainCompl true cs).lp = specMergeLogprobs (cs.map (fun c => c.logprobs)) := by
  rw [drainCompl, drainCompl_foldl_lp]; exact foldl_stepLP_none _

lemma erase_append_singleton {p : String} {fs : List String} (h : p ∉ fs) :
    (fs ++ [p]).erase p = fs := by
  rw [List.erase_append_right _ h, List.erase_cons_head, List.append_nil]

/-! ### Claims -/

/-- C8: for every finite producer of partial-content units, the streaming
adapter `_resp_async_generator` emits exactly one wire-framed event per
unit, in producer order, followed by exactly one terminal `[DONE]` sentinel,
and emits nothing else. -/
theorem c8_streaming_adapter_framing (rid : String) (tokens : List TokenVal) :
    resp_async_generator rid tokens
      = tokens.map (fun t => WireEvent.data rid t) ++ [WireEvent.done] := by
  induction tokens with
  | nil => rfl
  | cons t ts ih => simp [resp_async_generator, ih]

/-- C1 (code bug): on the completion-template path (`chat_format` unset),
`nexa_run_text_generation` with `stream=True` still returns the drained
result dict, so `generate_text` hands that dict to `_resp_async_generator`,
whose iteration yields the dict's keys.  The streamed wire chunks carry the
literal strings `"result"` and `"logprobs"` instead of the generated
content, while the non-streaming response for identical parameters carries
the generated text `"hi"`: the two paths do not agree as the spec requires. -/
theorem c1_stream_vs_nonstream_divergence :
    generate_text stNoChat "id0" { stream := false }
      = .jsonResponse ⟨"hi", 0, none, "stop"⟩ ∧
    generate_text stNoChat "id0" { stream := true }
      = .streamingResponse
          [.data "id0" (.str "result"), .data "id0" (.str "logprobs"), .done] ∧
    ("result" ++ "logprobs" : String) ≠ "hi" :=
  ⟨rfl, rfl, by decide⟩

/-- C2 counterexample: dispatching a text-only generation request while the
loaded handle is an Audio model does not produce a kind-mismatch 4xx
validation error; the `AttributeError` from `model.create_completion` is
caught by the generic handler and surfaced as a 500 error response. -/
theorem c2_counterexample_audio_dispatch_is_500 :
    generate_text stAudio "id0" {}
      = .errorResponse 500 (PyError.attributeError "create_completion").msg ∧
    isClientErrorResponse (generate_text stAudio "id0" {}) = false :=
  ⟨rfl, rfl⟩

/-- C2 (amended): dispatching a text-only generation request while the
loaded handle is an Audio or Diffusion model never crashes the service —
the attribute failure on the handle is caught and surfaced as a structured
500 error response — but no kind-mismatch 4xx validation error is produced. -/
theorem c2_amended_nontext_dispatch_is_structured_500 (st : ServerState)
    (rid : String) (req : GenerationRequest)
    (h : st.model = some .audio ∨ st.model = some .diffusion) :
    ∃ d, generate_text st rid req = .errorResponse 500 d := by
  unfold generate_text nexa_run_text_generation
  rcases h with h | h <;> rw [h] <;> cases st.chat_format <;> exact ⟨_, rfl⟩

/-- Witness for C2 (amended) at a concrete Diffusion state. -/
theorem c2_amended_witness :
    ∃ d, generate_text stDiffusion "w2" {} = .errorResponse 500 d :=
  c2_amended_nontext_dispatch_is_structured_500 stDiffusion "w2" {} (Or.inr rfl)

/-- C3: whenever the GPU-accelerated load attempt (`n_gpu_layers = -1`,
taken when a GPU is available) raises, the loader logs the fallback notice
and makes exactly one further attempt, the CPU-only load with
`n_gpu_layers = 0`: the attempt trace is exactly `[-1, 0]`. -/
theorem c3_gpu_failure_one_cpu_fallback (fails : Int → Bool)
    (h : fails (-1) = true) :
    (load_nlp_model true fails).attempts = [-1, 0] ∧
    (load_nlp_model true fails).fallback_logged = true ∧
    (load_nlp_model true fails).attempts.count (-1 : Int) = 1 ∧
    (load_nlp_model true fails).attempts.count (0 : Int) = 1 := by
  refine ⟨?_, ?_, ?_, ?_⟩ <;> simp [load_nlp_model, h]

/-- Witness for C3 with a constructor that fails exactly on the GPU attempt. -/
theorem c3_witness :
    (load_nlp_model true (fun n => decide (n = -1))).attempts = [-1, 0] ∧
    (load_nlp_model true (fun n => decide (n = -1))).fallback_logged = true ∧
    (load_nlp_model true (fun n => decide (n = -1))).attempts.count (-1 : Int) = 1 ∧
    (load_nlp_model true (fun n => decide (n = -1))).attempts.count (0 : Int) = 1 :=
  c3_gpu_failure_one_cpu_fallback _ (by decide)

/-- C4: for every transcription or translation request, on both exit paths
that exist inside the handler (successful transcription, or an engine error
raised by the wrapped model), the temporary audio file created for the
uploaded payload is removed from the filesystem before the handler returns
(the `finally` block unlinks it). -/
theorem c4_temp_audio_file_removed (fs : FileSystem) (p : String)
    (eng eng2 : Except String String) (h : p ∉ fs) :
    p ∉ (transcribe_audio fs p eng).2 ∧ p ∉ (translate_audio fs p eng2).2 := by
  have he := erase_append_singleton h
  refine ⟨?_, ?_⟩ <;>
    simp [transcribe_audio, translate_audio, audio_handler, he, h]

/-- Witness for C4: a failing transcription and a successful translation both
leave the filesystem without the temp file. -/
theorem c4_witness :
    "t.wav" ∉ (transcribe_audio ["keep.txt"] "t.wav" (Except.error "boom")).2 ∧
    "t.wav" ∉ (translate_audio ["keep.txt"] "t.wav" (Except.ok "hello")).2 :=
  c4_temp_audio_file_removed ["keep.txt"] "t.wav" _ _ (by decide)

/-- C5 counterexample: two chat requests that differ only in the content of
a non-final message produce identical internal generation requests, so the
differing message's content cannot contribute to the prompt passed to the
model handle. -/
theorem c5_counterexample_earlier_message_ignored :
    chatRequestToGenerationRequest
        { messages := [⟨"user", "HELLO"⟩, ⟨"user", "world"⟩] }
      = chatRequestToGenerationRequest
        { messages := [⟨"user", "GOODBYE"⟩, ⟨"user", "world"⟩] } ∧
    ("HELLO" : String) ≠ "GOODBYE" :=
  ⟨rfl, by decide⟩

/-- C5 (amended): the gateway unifies chat and completion requests into one
internal generation call, but the prompt it flattens out of the message list
is only the last message's content (the empty string for an empty list);
earlier messages are discarded. -/
theorem c5_amended_prompt_is_last_message_only (req : ChatCompletionRequest) :
    (req.messages = [] → (chatRequestToGenerationRequest req).prompt = "") ∧
    ∀ ms m, req.messages = ms ++ [m] →
      (chatRequestToGenerationRequest req).prompt = m.content := by
  constructor
  · intro h; simp [chatRequestToGenerationRequest, h]
  · intro ms m h; simp [chatRequestToGenerationRequest, h, List.getLast?_concat]

/-- Witness for C5 (amended) at a two-message request. -/
theorem c5_amended_witness :
    (chatRequestToGenerationRequest
        { messages := [⟨"user", "HELLO"⟩, ⟨"user", "world"⟩] }).prompt = "world" :=
  (c5_amended_prompt_is_last_message_only _).2 [⟨"user", "HELLO"⟩] ⟨"user", "world"⟩ rfl

/-- C6: when a non-streaming request carries the logprobs flag, the drained
response attaches the merge of the per-chunk logprobs records described by
the spec: the first carried record, extended field-by-field (for the field
names present in it) with each subsequent chunk's list for the same field
name. -/
theorem c6_nonstream_logprobs_merge (st : ServerState) (rid : String)
    (tm : TextModel) (req : GenerationRequest)
    (hm : st.model = some (.text tm)) (hs : req.stream = false)
    (hl : req.logprobs = true) :
    generate_text st rid req
      = .jsonResponse ⟨handleDrainText st tm, 0,
          specMergeLogprobs (handleStreamLogprobs st tm), "stop"⟩ := by
  unfold generate_text nexa_run_text_generation
  rw [hm, hs, hl]
  cases hcf : st.chat_format with
  | none =>
    simp [handleDrainText, handleStreamLogprobs, hcf, drainCompl_lp_eq_specMerge]
  | some cf =>
    simp [handleDrainText, handleStreamLogprobs, hcf, drainChat_lp_eq_specMerge]

/-- Witness for C6 on a chat-format model with two logprobs-carrying chunks. -/
theorem c6_witness :
    generate_text stChatLP "w6" { logprobs := true, stream := false }
      = .jsonResponse ⟨handleDrainText stChatLP tmLP, 0,
          specMergeLogprobs (handleStreamLogprobs stChatLP tmLP), "stop"⟩ :=
  c6_nonstream_logprobs_merge stChatLP "w6" tmLP _ rfl rfl rfl

/-- C7 counterexample: a request whose sampling parameters are far outside
any declared bounds (negative temperature, `top_p = 5`) is not rejected:
the declared validation accepts it and the gateway dispatches it to the
model handle, returning a normal 200 completion built from the engine's
output. -/
theorem c7_counterexample_out_of_bounds_dispatched :
    specSamplingWithinBounds { temperature := -1, top_p := 5 } = false ∧
    validateGenerationRequest { temperature := -1, top_p := 5 } = true ∧
    generate_text stNoChat "id7" { temperature := -1, top_p := 5 }
      = .jsonResponse ⟨"hi", 0, none, "stop"⟩ :=
  ⟨by decide, rfl, rfl⟩

/-- C7 (amended): `GenerationRequest` declares no bounds on its sampling
parameters, so request validation accepts every well-typed request and, with
a text model loaded, every request is dispatched to the handle (the handler
returns a streaming or JSON success response, never a 4xx rejection). -/
theorem c7_amended_no_bounds_declared (st : ServerState) (rid : String)
    (req : GenerationRequest) (tm : TextModel)
    (h : st.model = some (.text tm)) :
    validateGenerationRequest req = true ∧
    ((∃ ev, generate_text st rid req = .streamingResponse ev) ∨
     ∃ c, generate_text st rid req = .jsonResponse c) := by
  refine ⟨rfl, ?_⟩
  unfold generate_text nexa_run_text_generation
  rw [h]
  cases hcf : st.chat_format <;> cases hs : req.stream <;>
    first
      | exact Or.inr ⟨_, rfl⟩
      | exact Or.inl ⟨_, rfl⟩

/-- Witness for C7 (amended) at the default request on a loaded text model. -/
theorem c7_amended_witness :
    validateGenerationRequest {} = true ∧
    ((∃ ev, generate_text stNoChat "w7" {} = .streamingResponse ev) ∨
     ∃ c, generate_text stNoChat "w7" {} = .jsonResponse c) :=
  c7_amended_no_bounds_declared stNoChat "w7" {} tmHi rfl

/-- C9: a chat completion request with an empty messages list is not
rejected: the handler builds the generation request with the empty string as
the prompt and behaves exactly as it does for a single user message with
empty content; for a non-empty list, only the last message's content is used
as the prompt. -/
theorem c9_empty_messages_empty_prompt (req : ChatCompletionRequest) :
    (req.messages = [] →
      (chatRequestToGenerationRequest req).prompt = "" ∧
      ∀ st rid, chat_completions st rid req
        = chat_completions st rid { req with messages := [⟨"user", ""⟩] }) ∧
    ∀ ms m, req.messages = ms ++ [m] →
      (chatRequestToGenerationRequest req).prompt = m.content := by
  constructor
  · intro h
    have hg : chatRequestToGenerationRequest req
        = chatRequestToGenerationRequest { req with messages := [⟨"user", ""⟩] } := by
      simp [chatRequestToGenerationRequest, h]
    refine ⟨by simp [chatRequestToGenerationRequest, h], fun st rid => ?_⟩
    unfold chat_completions
    rw [hg]
  · intro ms m h
    simp [chatRequestToGenerationRequest, h, List.getLast?_concat]

/-- Witness for C9 at the empty-messages request. -/
theorem c9_witness :
    (chatRequestToGenerationRequest { messages := ([] : List Message) }).prompt = "" :=
  ((c9_empty_messages_empty_prompt { messages := [] }).1 rfl).1

/-- C10: for a generation call on a model with no chat format set (the
completion-template path), the stream flag has no effect:
`nexa_run_text_generation` returns the same fully-drained result record for
`stream=true` and `stream=false`, and never returns the incremental
producer. -/
theorem c10_no_chat_format_ignores_stream_flag (st : ServerState)
    (prompt : String) (temperature : Rat) (stop_words : List String)
    (max_new_tokens top_k : Int) (top_p : Rat) (logprobs : Bool)
    (top_logprobs : Int) (h : st.chat_format = none) :
    nexa_run_text_generation st prompt temperature stop_words max_new_tokens
        top_k top_p logprobs top_logprobs true
      = nexa_run_text_generation st prompt temperature stop_words max_new_tokens
        top_k top_p logprobs top_logprobs false ∧
    ∀ call chunks,
      nexa_run_text_generation st prompt temperature stop_words max_new_tokens
        top_k top_p logprobs top_logprobs true ≠ .ok (.streamer call chunks) := by
  unfold nexa_run_text_generation
  rw [h]
  cases hm : st.model with
  | none => exact ⟨rfl, fun call chunks hc => by simp at hc⟩
  | some hd =>
    cases hd with
    | text tm => exact ⟨rfl, fun call chunks hc => by simp at hc⟩
    | audio => exact ⟨rfl, fun call chunks hc => by simp at hc⟩
    | diffusion => exact ⟨rfl, fun call chunks hc => by simp at hc⟩

/-- Witness for C10 on the concrete no-chat-format state. -/
theorem c10_witness :
    nexa_run_text_generation stNoChat "p" 1 [] 128 50 1 false 4 true
      = nexa_run_text_generation stNoChat "p" 1 [] 128 50 1 false 4 false :=
  (c10_no_chat_format_ignores_stream_flag stNoChat "p" 1 [] 128 50 1 false 4 rfl).1

end NexaService
